import Mathlib

/-!
Verification of the offline sale queue and reconciliation engine of the
vape-kings point-of-sale repository.

The embedding models the Dashboard component (source: `src/unnamed/part_002`:
`handleUpdateStock`, `handleNewSale`, `syncOfflineSales`, `productStockMap`,
`addAuditLog`) and the PosScreen component (source:
`src/components/PosScreen.tsx`: `completeSale`, `handleClosePrintModal`).

Remote writes (Supabase calls) are modelled as a trace of `Action`s emitted in
program order, with a `RemoteEnv` oracle deciding which remote writes succeed.
This is faithful to the source's control flow: a Supabase query never throws —
it returns a `{data, error}` pair and the source inspects `error` — so each
call site's success/failure check is modelled by consulting the oracle.
Quantities and prices are JavaScript numbers used only integrally here; they
are modelled as `Int`.  The `offlineSales` localStorage slot is modelled as the
parsed list of carts it holds (the JSON round-trip is the identity on
well-formed data).  The `stockLevels` React state read by `handleNewSale` is a
closure snapshot that does not change during one drain: the model passes a
single fixed `stockLevels` list to every record of a drain, exactly as the
`useCallback` closure does.
-/

namespace VapeKings

/-- A product row (source: `src/types.ts`, interface `Product`). -/
structure Product where
  id : String
  name : String
  brand : String
  category : String
  variant : String
  price : Int
  size : String
  image_url : String
  barcode : String
deriving DecidableEq, Repr

/-- A stock level row (source: `src/types.ts`, interface `StockLevel`). -/
structure StockLevel where
  id : String
  product_id : String
  branch_id : String
  quantity : Int
deriving DecidableEq, Repr

/-- One cart line as passed to `onNewSale` (source: `PosScreen.tsx`,
`CartItem`: a product together with a quantity). -/
structure CartItem where
  product : Product
  quantity : Int
deriving DecidableEq, Repr

/-- A cart is the list of its line items. -/
abbrev Cart := List CartItem

/-- User roles (source: `src/types.ts`, enum `Role`). -/
inductive Role where
  | Owner
  | Staff
deriving DecidableEq, Repr

/-- The acting user (source: `src/types.ts`, interface `User`; only the fields
the modelled callbacks read). -/
structure User where
  id : String
  name : String
  branch_id : String
  role : Role
deriving DecidableEq, Repr

/-- A row of the `sales` table as built by `handleNewSale`
(source: `part_002` lines 94-101; the `date` field, a wall-clock timestamp, is
outside the model). -/
structure SaleRow where
  product_id : String
  quantity : Int
  total_price : Int
  branch_id : String
  user_id : String
deriving DecidableEq, Repr

/-- The structured content of an audit row's `details` template string:
either the stock-change message built inside `handleUpdateStock`
(`"... stock for ${productName}. New quantity: ${newQuantity}."`) or the
sync announcement built inside `syncOfflineSales`
(`"Syncing ${n} sales recorded while offline."`). -/
inductive AuditDetails where
  | stockChange (productName : String) (newQuantity : Int)
  | syncOffline (count : Nat)
deriving DecidableEq, Repr

/-- One observable effect, in program order: a remote write attempt
(`insertSales` on the `sales` table, `updateStock` on `stock_levels`,
`insertAudit` on `audit_logs`), the destruction of the local queue
(`localStorage.removeItem('offlineSales')`), or a user-facing alert. -/
inductive Action where
  | insertSales (rows : List SaleRow)
  | updateStock (productId : String) (newQuantity : Int)
  | insertAudit (action : String) (details : AuditDetails)
  | queueRemoveAll
  | alertMsg (msg : String)
deriving DecidableEq, Repr

/-- The remote system of record's behaviour: which write attempts succeed.
The source checks the returned `error` of the sales insert and of the stock
update; the audit insert's error is only logged and affects nothing else. -/
structure RemoteEnv where
  salesInsertOk : List SaleRow → Bool
  stockUpdateOk : String → Int → Bool

/-- `addAuditLog` (source: `part_002` lines 52-62): one insert attempt into
`audit_logs`; a returned error is only logged. -/
def addAuditLog (action : String) (details : AuditDetails) : List Action :=
  [Action.insertAudit action details]

/-- The product-name lookup inside `handleUpdateStock`
(`products.find(p => p.id === productId)?.name || 'Unknown Product'`). -/
def productNameOf (products : List Product) (productId : String) : String :=
  match products.find? (fun p => p.id == productId) with
  | some p => p.name
  | none => "Unknown Product"

/-- `handleUpdateStock` (source: `part_002` lines 81-92): after the
role guard for manual updates, one update of the `stock_levels` row, and on
its success one audit entry recording the new quantity. -/
def handleUpdateStock (env : RemoteEnv) (user : User) (products : List Product)
    (productId : String) (newQuantity : Int) (reason : String) : List Action :=
  if reason == "Manual Update" && !(user.role == Role.Owner) then
    []
  else
    Action.updateStock productId newQuantity ::
      (if env.stockUpdateOk productId newQuantity then
        addAuditLog reason (AuditDetails.stockChange (productNameOf products productId) newQuantity)
      else [])

/-- The `salesToInsert` payload built by `handleNewSale` from a cart
(source: `part_002` lines 95-101). -/
def saleRowsOf (user : User) (cart : Cart) : List SaleRow :=
  cart.map (fun item =>
    { product_id := item.product.id
      quantity := item.quantity
      total_price := item.product.price * item.quantity
      branch_id := user.branch_id
      user_id := user.id })

/-- One iteration of `handleNewSale`'s stock-decrement loop
(source: `part_002` lines 107-112): look the product up in the `stockLevels`
snapshot; when a row exists, write `currentStock.quantity - item.quantity`
through `handleUpdateStock` with reason `'Sale'`; when none exists, do
nothing at all for this line. -/
def saleItemActions (env : RemoteEnv) (user : User) (products : List Product)
    (stockLevels : List StockLevel) (item : CartItem) : List Action :=
  match stockLevels.find? (fun s => s.product_id == item.product.id) with
  | some currentStock =>
      handleUpdateStock env user products item.product.id
        (currentStock.quantity - item.quantity) "Sale"
  | none => []

/-- `handleNewSale` (source: `part_002` lines 94-113): insert all sale rows in
one call; on error, return at once (the error is only logged); on success run
the stock-decrement loop over the cart. -/
def handleNewSale (env : RemoteEnv) (user : User) (products : List Product)
    (stockLevels : List StockLevel) (cart : Cart) : List Action :=
  Action.insertSales (saleRowsOf user cart) ::
    (if env.salesInsertOk (saleRowsOf user cart) then
      (cart.map (saleItemActions env user products stockLevels)).flatten
    else [])

/-- The success alert at the end of a drain. -/
def syncSuccessMsg : String := "Offline sales have been successfully synced!"

/-- `syncOfflineSales` (source: `part_002` lines 115-139): if the parsed queue
is a non-empty array, append one sync audit entry, replay every queued cart in
order through `handleNewSale` (which never throws), then unconditionally
remove the `offlineSales` slot and alert success.  Returns the emitted trace
and the queue left in local storage. -/
def syncOfflineSales (env : RemoteEnv) (user : User) (products : List Product)
    (stockLevels : List StockLevel) (queue : List Cart) :
    List Action × List Cart :=
  if queue.isEmpty then
    ([], queue)
  else
    (addAuditLog "Sync Offline Sales" (AuditDetails.syncOffline queue.length)
        ++ (queue.map (handleNewSale env user products stockLevels)).flatten
        ++ [Action.queueRemoveAll, Action.alertMsg syncSuccessMsg],
      [])

/-- `productStockMap` (source: `part_002` lines 283-288): each product paired
with the quantity of its `stock_levels` row, or `0` when no row matches. -/
def productStockMap (products : List Product) (stockLevels : List StockLevel) :
    List (Product × Int) :=
  products.map (fun p =>
    (p, match stockLevels.find? (fun s => s.product_id == p.id) with
        | some s => s.quantity
        | none => 0))

/-- The remote stock snapshot for one product: the quantity of its
`stock_levels` row, `0` when absent (the same lookup `productStockMap`
performs per product). -/
def remoteStockSnapshot (stockLevels : List StockLevel) (productId : String) : Int :=
  match stockLevels.find? (fun s => s.product_id == productId) with
  | some s => s.quantity
  | none => 0

/-- Stated from the specification for comparison with the code (it is not a
function of the source): `projectedStock(productId) =
remoteStockSnapshot(productId) - Σ(quantity for productId across all
PendingSaleRecord currently queued)`. -/
def projectedStockSpec (stockLevels : List StockLevel) (queue : List Cart)
    (productId : String) : Int :=
  remoteStockSnapshot stockLevels productId
    - ((queue.flatten.filter (fun item => item.product.id == productId)).map
        (fun item => item.quantity)).sum

/-- The PosScreen state touched by `completeSale`: the in-memory cart, the
parsed `offlineSales` queue, and whether the print modal is open. -/
structure PosState where
  cart : Cart
  queue : List Cart
  printModalOpen : Bool
deriving DecidableEq, Repr

/-- The offline-branch alert of `completeSale`. -/
def offlineSavedMsg : String :=
  "You are offline. Sale has been saved locally and will be synced automatically when you reconnect."

/-- `completeSale` (source: `PosScreen.tsx` lines 71-89) composed with the
`onNewSale` prop, which the Dashboard binds to `handleNewSale`.  Online: call
`onNewSale(cart)` without awaiting it, then either open the print modal
(printer enabled) or clear the cart at once; the queue is never touched.
Offline: push the cart onto the `offlineSales` slot; `storageOk` models
whether `localStorage.setItem` succeeds — when it throws, the alert and
`setCart([])` below it never run, so cart and queue are unchanged. -/
def completeSale (env : RemoteEnv) (user : User) (products : List Product)
    (stockLevels : List StockLevel) (isOnline isPrinterEnabled storageOk : Bool)
    (st : PosState) : PosState × List Action :=
  if isOnline then
    let acts := handleNewSale env user products stockLevels st.cart
    if isPrinterEnabled then
      ({ st with printModalOpen := true }, acts)
    else
      ({ st with cart := [] }, acts)
  else
    if storageOk then
      ({ st with cart := [], queue := st.queue ++ [st.cart] },
        [Action.alertMsg offlineSavedMsg])
    else
      (st, [])

/-- `handleClosePrintModal` (source: `PosScreen.tsx` lines 92-96): close the
modal and clear the cart, unconditionally. -/
def handleClosePrintModal (st : PosState) : PosState :=
  { st with cart := [], printModalOpen := false }

/-- Recognizer: is this action a `sales` insert? -/
def Action.isInsertSales : Action → Bool
  | Action.insertSales _ => true
  | _ => false

/-- Recognizer: is this action a `stock_levels` update? -/
def Action.isUpdateStock : Action → Bool
  | Action.updateStock _ _ => true
  | _ => false

/-- Recognizer: is this action an `audit_logs` insert? -/
def Action.isAudit : Action → Bool
  | Action.insertAudit _ _ => true
  | _ => false

/-- The payloads of the `sales` inserts of a trace, in order. -/
def insertedSaleRows (trace : List Action) : List (List SaleRow) :=
  trace.filterMap (fun a =>
    match a with
    | Action.insertSales rows => some rows
    | _ => none)

/-- A remote that accepts every write. -/
def envAllOk : RemoteEnv :=
  { salesInsertOk := fun _ => true
    stockUpdateOk := fun _ _ => true }

/-- A remote whose `sales` insert always fails; stock updates still succeed. -/
def envInsertFail : RemoteEnv :=
  { salesInsertOk := fun _ => false
    stockUpdateOk := fun _ _ => true }

/-- A concrete acting user. -/
def userA : User :=
  { id := "u1", name := "Alice", branch_id := "branch-1", role := Role.Owner }

/-- A concrete product `A`. -/
def prodA : Product :=
  { id := "A", name := "Alpha Juice", brand := "Alpha", category := "juice"
    variant := "mint", price := 5, size := "30ml", image_url := "", barcode := "111" }

/-- A concrete product `B`. -/
def prodB : Product :=
  { id := "B", name := "Beta Pod", brand := "Beta", category := "pod"
    variant := "ice", price := 7, size := "2ml", image_url := "", barcode := "222" }

/-- Stock row: product `A` has quantity 10. -/
def stockA10 : StockLevel :=
  { id := "sl1", product_id := "A", branch_id := "branch-1", quantity := 10 }

/-- Stock row: product `A` has quantity 1. -/
def stockA1 : StockLevel :=
  { id := "sl1", product_id := "A", branch_id := "branch-1", quantity := 1 }

/-- Stock row: product `B` has quantity 4. -/
def stockB4 : StockLevel :=
  { id := "sl2", product_id := "B", branch_id := "branch-1", quantity := 4 }

/-- A remote whose sales insert fails exactly on the payload of a
one-line cart of product `A` with quantity 1 (used to make the first queued
sale of a drain fail while later ones succeed). -/
def envFailOnA1 : RemoteEnv :=
  { salesInsertOk := fun rows => !(rows == saleRowsOf userA [⟨prodA, 1⟩])
    stockUpdateOk := fun _ _ => true }

/-- `totalLines q` is the total number of cart lines across the queued carts. -/
def totalLines (q : List Cart) : Nat :=
  (q.map List.length).sum

/-- The manual-update role guard of `handleUpdateStock` is never taken when
the reason is the literal `'Sale'`. -/
theorem sale_guard_false (u : User) :
    ((("Sale" : String) == "Manual Update") && !(u.role == Role.Owner)) = false := by
  have h : (("Sale" : String) == "Manual Update") = false := by decide
  rw [h, Bool.false_and]

/-- `handleUpdateStock` with reason `'Sale'`: one stock update, followed by
one audit entry exactly when the update succeeded. -/
theorem handleUpdateStock_sale (env : RemoteEnv) (u : User) (ps : List Product)
    (pid : String) (n : Int) :
    handleUpdateStock env u ps pid n "Sale" =
      Action.updateStock pid n ::
        (if env.stockUpdateOk pid n then
          [Action.insertAudit "Sale" (AuditDetails.stockChange (productNameOf ps pid) n)]
        else []) := by
  simp [handleUpdateStock, addAuditLog, sale_guard_false u]

/-- Every action emitted for one cart line of the stock-decrement loop is
either the decrement write for that line's product or its audit entry, and the
written quantity is snapshot-quantity minus line-quantity. -/
theorem mem_saleItemActions {env : RemoteEnv} {u : User} {ps : List Product}
    {sls : List StockLevel} {item : CartItem} {a : Action}
    (h : a ∈ saleItemActions env u ps sls item) :
    ∃ s, sls.find? (fun s2 => s2.product_id == item.product.id) = some s ∧
      (a = Action.updateStock item.product.id (s.quantity - item.quantity) ∨
        a = Action.insertAudit "Sale"
          (AuditDetails.stockChange (productNameOf ps item.product.id)
            (s.quantity - item.quantity))) := by
  unfold saleItemActions at h
  cases hfind : sls.find? (fun s2 => s2.product_id == item.product.id) with
  | none =>
      rw [hfind] at h
      simp at h
  | some s =>
      rw [hfind] at h
      have h2 : a ∈ handleUpdateStock env u ps item.product.id
          (s.quantity - item.quantity) "Sale" := h
      rw [handleUpdateStock_sale] at h2
      refine ⟨s, rfl, ?_⟩
      rcases List.mem_cons.mp h2 with h1 | h1
      · exact Or.inl h1
      · by_cases hok : env.stockUpdateOk item.product.id (s.quantity - item.quantity)
        · rw [if_pos hok] at h1
          simp at h1
          exact Or.inr h1
        · rw [if_neg hok] at h1
          simp at h1

/-- The stock-decrement loop never inserts sale rows. -/
theorem insertedSaleRows_items_nil (env : RemoteEnv) (u : User) (ps : List Product)
    (sls : List StockLevel) (c : Cart) :
    insertedSaleRows ((c.map (saleItemActions env u ps sls)).flatten) = [] := by
  rw [insertedSaleRows, List.filterMap_eq_nil_iff]
  intro a ha
  rcases List.mem_flatten.mp ha with ⟨l, hl, hal⟩
  rcases List.mem_map.mp hl with ⟨item, _, rfl⟩
  rcases mem_saleItemActions hal with ⟨s, _, h | h⟩ <;> subst h <;> rfl

/-- A successful `handleNewSale` contributes exactly its own sale-rows payload
to the list of sales inserts. -/
theorem insertedSaleRows_handleNewSale {env : RemoteEnv} {u : User}
    {ps : List Product} {sls : List StockLevel} {c : Cart}
    (hins : env.salesInsertOk (saleRowsOf u c) = true) :
    insertedSaleRows (handleNewSale env u ps sls c) = [saleRowsOf u c] := by
  rw [handleNewSale, if_pos hins]
  rw [insertedSaleRows, List.filterMap_cons]
  simp only []
  rw [← insertedSaleRows]
  rw [insertedSaleRows_items_nil]

/-- The sales-insert payloads of a whole drain loop are exactly the queued
carts' payloads, in queue order. -/
theorem insertedSaleRows_flattenCarts (env : RemoteEnv) (u : User)
    (ps : List Product) (sls : List StockLevel)
    (hins : ∀ rows, env.salesInsertOk rows = true) :
    ∀ q : List Cart,
      insertedSaleRows ((q.map (handleNewSale env u ps sls)).flatten) =
        q.map (saleRowsOf u)
  | [] => by simp [insertedSaleRows]
  | c :: rest => by
      rw [List.map_cons, List.flatten_cons, insertedSaleRows, List.filterMap_append,
        ← insertedSaleRows, ← insertedSaleRows,
        insertedSaleRows_handleNewSale (hins (saleRowsOf u c)),
        insertedSaleRows_flattenCarts env u ps sls hins rest, List.map_cons]
      rfl

/-- Reduction of one loop iteration when the product has a stock row. -/
theorem saleItemActions_eq_some {env : RemoteEnv} {u : User} {ps : List Product}
    {sls : List StockLevel} {item : CartItem} {s : StockLevel}
    (hs : sls.find? (fun s2 => s2.product_id == item.product.id) = some s) :
    saleItemActions env u ps sls item =
      handleUpdateStock env u ps item.product.id (s.quantity - item.quantity) "Sale" := by
  unfold saleItemActions
  rw [hs]

/-- Reduction of one loop iteration when the product has no stock row. -/
theorem saleItemActions_eq_none {env : RemoteEnv} {u : User} {ps : List Product}
    {sls : List StockLevel} {item : CartItem}
    (hs : sls.find? (fun s2 => s2.product_id == item.product.id) = none) :
    saleItemActions env u ps sls item = [] := by
  unfold saleItemActions
  rw [hs]

/-- The drain always leaves the `offlineSales` slot empty (for an empty queue
it was already empty; for a non-empty one it is unconditionally removed). -/
theorem syncOfflineSales_queue_nil (env : RemoteEnv) (u : User)
    (ps : List Product) (sls : List StockLevel) (q : List Cart) :
    (syncOfflineSales env u ps sls q).2 = [] := by
  rw [syncOfflineSales]
  by_cases hq : q.isEmpty
  · rw [if_pos hq]
    exact List.isEmpty_iff.mp hq
  · rw [if_neg hq]

/-- The trace of a drain over a non-empty queue: the sync audit entry, the
replay of every cart in queue order, the queue removal, the success alert. -/
theorem syncOfflineSales_trace (env : RemoteEnv) (u : User) (ps : List Product)
    (sls : List StockLevel) {q : List Cart} (hq : q ≠ []) :
    (syncOfflineSales env u ps sls q).1 =
      Action.insertAudit "Sync Offline Sales" (AuditDetails.syncOffline q.length) ::
        ((q.map (handleNewSale env u ps sls)).flatten ++
          [Action.queueRemoveAll, Action.alertMsg syncSuccessMsg]) := by
  rw [syncOfflineSales, if_neg (by simpa [List.isEmpty_iff] using hq)]
  rfl

/-- Trace counts of one loop iteration for a stocked product under a remote
that accepts stock updates: one decrement, one audit, no sales insert. -/
theorem saleItemActions_counts {env : RemoteEnv} {u : User} {ps : List Product}
    {sls : List StockLevel} {item : CartItem}
    (hupd : ∀ pid n, env.stockUpdateOk pid n = true)
    (hstk : (sls.find? (fun s => s.product_id == item.product.id)).isSome) :
    (saleItemActions env u ps sls item).countP Action.isInsertSales = 0 ∧
    (saleItemActions env u ps sls item).countP Action.isUpdateStock = 1 ∧
    (saleItemActions env u ps sls item).countP Action.isAudit = 1 := by
  obtain ⟨s, hs⟩ := Option.isSome_iff_exists.mp hstk
  rw [saleItemActions_eq_some hs, handleUpdateStock_sale,
    hupd item.product.id (s.quantity - item.quantity)]
  simp [List.countP_cons, Action.isInsertSales, Action.isUpdateStock, Action.isAudit]

/-- Trace counts of the whole stock-decrement loop of one cart whose products
are all stocked. -/
theorem itemsTrace_counts (env : RemoteEnv) (u : User) (ps : List Product)
    (sls : List StockLevel)
    (hupd : ∀ pid n, env.stockUpdateOk pid n = true) :
    ∀ c : Cart,
      (∀ item ∈ c, (sls.find? (fun s => s.product_id == item.product.id)).isSome) →
      (((c.map (saleItemActions env u ps sls)).flatten).countP Action.isInsertSales = 0 ∧
        ((c.map (saleItemActions env u ps sls)).flatten).countP Action.isUpdateStock = c.length ∧
        ((c.map (saleItemActions env u ps sls)).flatten).countP Action.isAudit = c.length)
  | [], _ => by simp
  | i :: rest, hstk => by
      obtain ⟨hi1, hi2, hi3⟩ :=
        saleItemActions_counts hupd (hstk i (List.mem_cons_self i rest))
      obtain ⟨hr1, hr2, hr3⟩ := itemsTrace_counts env u ps sls hupd rest
        (fun item hm => hstk item (List.mem_cons_of_mem i hm))
      rw [List.map_cons, List.flatten_cons, List.countP_append, List.countP_append,
        List.countP_append, hi1, hi2, hi3, hr1, hr2, hr3, List.length_cons]
      omega

/-- Trace counts of one replayed cart whose products are all stocked, under a
fully accepting remote. -/
theorem handleNewSale_counts {env : RemoteEnv} {u : User} {ps : List Product}
    {sls : List StockLevel} (c : Cart)
    (hins : env.salesInsertOk (saleRowsOf u c) = true)
    (hupd : ∀ pid n, env.stockUpdateOk pid n = true)
    (hstk : ∀ item ∈ c, (sls.find? (fun s => s.product_id == item.product.id)).isSome) :
    (handleNewSale env u ps sls c).countP Action.isInsertSales = 1 ∧
    (handleNewSale env u ps sls c).countP Action.isUpdateStock = c.length ∧
    (handleNewSale env u ps sls c).countP Action.isAudit = c.length := by
  obtain ⟨h1, h2, h3⟩ := itemsTrace_counts env u ps sls hupd c hstk
  rw [handleNewSale, if_pos hins, List.countP_cons, List.countP_cons, List.countP_cons,
    h1, h2, h3]
  simp [Action.isInsertSales, Action.isUpdateStock, Action.isAudit]

/-- Trace counts of the replay loop of a whole queue whose products are all
stocked, under a fully accepting remote. -/
theorem drainTrace_counts (env : RemoteEnv) (u : User) (ps : List Product)
    (sls : List StockLevel)
    (hins : ∀ rows, env.salesInsertOk rows = true)
    (hupd : ∀ pid n, env.stockUpdateOk pid n = true) :
    ∀ q : List Cart,
      (∀ c ∈ q, ∀ item ∈ c, (sls.find? (fun s => s.product_id == item.product.id)).isSome) →
      (((q.map (handleNewSale env u ps sls)).flatten).countP Action.isInsertSales = q.length ∧
        ((q.map (handleNewSale env u ps sls)).flatten).countP Action.isUpdateStock = totalLines q ∧
        ((q.map (handleNewSale env u ps sls)).flatten).countP Action.isAudit = totalLines q)
  | [], _ => by simp [totalLines]
  | c :: rest, hstk => by
      obtain ⟨hc1, hc2, hc3⟩ := handleNewSale_counts c (hins (saleRowsOf u c)) hupd
        (hstk c (List.mem_cons_self c rest))
      obtain ⟨hr1, hr2, hr3⟩ := drainTrace_counts env u ps sls hins hupd rest
        (fun c2 hm => hstk c2 (List.mem_cons_of_mem c hm))
      rw [List.map_cons, List.flatten_cons, List.countP_append, List.countP_append,
        List.countP_append, hc1, hc2, hc3, hr1, hr2, hr3, List.length_cons]
      simp [totalLines]
      omega

/-- One loop iteration emits exactly as many audit entries as stock updates
when the remote accepts stock updates (whether or not the product is
stocked). -/
theorem saleItemActions_audit_eq_update {env : RemoteEnv} {u : User}
    {ps : List Product} {sls : List StockLevel} (item : CartItem)
    (hupd : ∀ pid n, env.stockUpdateOk pid n = true) :
    (saleItemActions env u ps sls item).countP Action.isAudit =
      (saleItemActions env u ps sls item).countP Action.isUpdateStock := by
  cases hs : sls.find? (fun s => s.product_id == item.product.id) with
  | none =>
      rw [saleItemActions_eq_none hs]
      rfl
  | some s =>
      rw [saleItemActions_eq_some hs, handleUpdateStock_sale,
        hupd item.product.id (s.quantity - item.quantity)]
      simp [List.countP_cons, Action.isAudit, Action.isUpdateStock]

/-- The stock-decrement loop of one cart emits as many audit entries as stock
updates. -/
theorem itemsTrace_audit_eq_update (env : RemoteEnv) (u : User)
    (ps : List Product) (sls : List StockLevel)
    (hupd : ∀ pid n, env.stockUpdateOk pid n = true) :
    ∀ c : Cart,
      ((c.map (saleItemActions env u ps sls)).flatten).countP Action.isAudit =
        ((c.map (saleItemActions env u ps sls)).flatten).countP Action.isUpdateStock
  | [] => rfl
  | i :: rest => by
      rw [List.map_cons, List.flatten_cons, List.countP_append, List.countP_append,
        saleItemActions_audit_eq_update i hupd,
        itemsTrace_audit_eq_update env u ps sls hupd rest]

/-- One replayed cart emits as many audit entries as stock updates, whatever
the sales-insert outcome. -/
theorem handleNewSale_audit_eq_update (env : RemoteEnv) (u : User)
    (ps : List Product) (sls : List StockLevel) (c : Cart)
    (hupd : ∀ pid n, env.stockUpdateOk pid n = true) :
    (handleNewSale env u ps sls c).countP Action.isAudit =
      (handleNewSale env u ps sls c).countP Action.isUpdateStock := by
  rw [handleNewSale]
  by_cases hins : env.salesInsertOk (saleRowsOf u c) = true
  · rw [if_pos hins, List.countP_cons, List.countP_cons,
      itemsTrace_audit_eq_update env u ps sls hupd c]
    simp [Action.isAudit, Action.isUpdateStock]
  · rw [if_neg hins]
    rfl

/-- The replay loop of a whole queue emits as many audit entries as stock
updates. -/
theorem drain_audit_eq_update (env : RemoteEnv) (u : User) (ps : List Product)
    (sls : List StockLevel)
    (hupd : ∀ pid n, env.stockUpdateOk pid n = true) :
    ∀ q : List Cart,
      ((q.map (handleNewSale env u ps sls)).flatten).countP Action.isAudit =
        ((q.map (handleNewSale env u ps sls)).flatten).countP Action.isUpdateStock
  | [] => rfl
  | c :: rest => by
      rw [List.map_cons, List.flatten_cons, List.countP_append, List.countP_append,
        handleNewSale_audit_eq_update env u ps sls c hupd,
        drain_audit_eq_update env u ps sls hupd rest]

/-- Every stock update in a drain's trace is the decrement of some queued
line: its product is that line's product and the written quantity is the
snapshot quantity minus the line quantity. -/
theorem updateStock_mem_drain {env : RemoteEnv} {u : User} {ps : List Product}
    {sls : List StockLevel} {q : List Cart} {pid : String} {n : Int}
    (hmem : Action.updateStock pid n ∈ (syncOfflineSales env u ps sls q).1) :
    ∃ c, c ∈ q ∧ ∃ item, item ∈ c ∧ pid = item.product.id ∧
      ∃ s, sls.find? (fun s2 => s2.product_id == item.product.id) = some s ∧
        n = s.quantity - item.quantity := by
  by_cases hq : q = []
  · subst hq
    rw [syncOfflineSales] at hmem
    simp at hmem
  · rw [syncOfflineSales_trace env u ps sls hq] at hmem
    rcases List.mem_cons.mp hmem with h | h
    · simp at h
    rcases List.mem_append.mp h with h | h
    · rcases List.mem_flatten.mp h with ⟨l, hl, hal⟩
      rcases List.mem_map.mp hl with ⟨c, hc, rfl⟩
      rw [handleNewSale] at hal
      rcases List.mem_cons.mp hal with h2 | h2
      · simp at h2
      by_cases hins : env.salesInsertOk (saleRowsOf u c) = true
      · rw [if_pos hins] at h2
        rcases List.mem_flatten.mp h2 with ⟨l2, hl2, hal2⟩
        rcases List.mem_map.mp hl2 with ⟨item, hitem, rfl⟩
        rcases mem_saleItemActions hal2 with ⟨s, hs, hcase | hcase⟩
        · injection hcase with h3 h4
          exact ⟨c, hc, item, hitem, h3, s, hs, h4⟩
        · simp at hcase
      · rw [if_neg hins] at h2
        simp at h2
    · simp at h

/-- Sales inserts of a trace: appending traces appends the payload lists. -/
theorem insertedSaleRows_append (t1 t2 : List Action) :
    insertedSaleRows (t1 ++ t2) = insertedSaleRows t1 ++ insertedSaleRows t2 := by
  simp [insertedSaleRows, List.filterMap_append]

/-- An audit entry at the head of a trace contributes no sales insert. -/
theorem insertedSaleRows_audit_cons (act : String) (d : AuditDetails)
    (t : List Action) :
    insertedSaleRows (Action.insertAudit act d :: t) = insertedSaleRows t := by
  simp [insertedSaleRows, List.filterMap_cons]

/-- The queue-removal and alert tail of a drain contributes no sales insert. -/
theorem insertedSaleRows_tail (m : String) :
    insertedSaleRows [Action.queueRemoveAll, Action.alertMsg m] = [] := by
  simp [insertedSaleRows, List.filterMap_cons]

/-- C1: the code contradicts the claim: with a remote whose sales insert
fails, a drain of the one-record queue still removes the `offlineSales` slot
(`queueRemoveAll` is emitted and the resulting queue is empty) even though no
remote write for the sale succeeded — the failed insert is the only remote
sale action and no stock decrement follows it.  `handleNewSale` swallows the
insert error, so `syncOfflineSales` always reaches
`localStorage.removeItem('offlineSales')`. -/
theorem c1_queue_cleared_without_success :
    (syncOfflineSales envInsertFail userA [prodA] [stockA10] [[⟨prodA, 2⟩]]).2 = [] ∧
    Action.queueRemoveAll ∈
      (syncOfflineSales envInsertFail userA [prodA] [stockA10] [[⟨prodA, 2⟩]]).1 ∧
    Action.insertSales (saleRowsOf userA [⟨prodA, 2⟩]) ∈
      (syncOfflineSales envInsertFail userA [prodA] [stockA10] [[⟨prodA, 2⟩]]).1 ∧
    Action.updateStock "A" 8 ∉
      (syncOfflineSales envInsertFail userA [prodA] [stockA10] [[⟨prodA, 2⟩]]).1 := by
  decide

/-- C2: the code contradicts the claim: draining a two-record queue whose
first record's Remote Submission fails does not stop — the second record is
still submitted (its sale insert and its stock decrement to 2 appear in the
trace), the queue ends empty rather than retaining the failed record, and the
drain surfaces the success alert, not an error. -/
theorem c2_drain_continues_past_failure :
    (syncOfflineSales envFailOnA1 userA [prodA, prodB] [stockA10, stockB4]
        [[⟨prodA, 1⟩], [⟨prodB, 2⟩]]).2 = [] ∧
    Action.insertSales (saleRowsOf userA [⟨prodB, 2⟩]) ∈
      (syncOfflineSales envFailOnA1 userA [prodA, prodB] [stockA10, stockB4]
        [[⟨prodA, 1⟩], [⟨prodB, 2⟩]]).1 ∧
    Action.updateStock "B" 2 ∈
      (syncOfflineSales envFailOnA1 userA [prodA, prodB] [stockA10, stockB4]
        [[⟨prodA, 1⟩], [⟨prodB, 2⟩]]).1 ∧
    Action.updateStock "A" 9 ∉
      (syncOfflineSales envFailOnA1 userA [prodA, prodB] [stockA10, stockB4]
        [[⟨prodA, 1⟩], [⟨prodB, 2⟩]]).1 ∧
    Action.alertMsg syncSuccessMsg ∈
      (syncOfflineSales envFailOnA1 userA [prodA, prodB] [stockA10, stockB4]
        [[⟨prodA, 1⟩], [⟨prodB, 2⟩]]).1 := by
  decide

/-- C3 (counterexample): with remote stock 10 for product `A` and one queued
sale of quantity 3, the stock the system reports through `productStockMap`
is 10, while the claimed formula
`remoteStockSnapshot - Σ(queued quantities)` gives 7. -/
theorem c3_stock_ignores_queue :
    (prodA, (10 : Int)) ∈ productStockMap [prodA] [stockA10] ∧
    projectedStockSpec [stockA10] [[⟨prodA, 3⟩]] "A" = 7 ∧
    (10 : Int) ≠ 7 := by
  decide

/-- C3 (amended): the stock quantity the system reports for a product equals
the last known remote stock snapshot (0 when the product has no stock row);
queued pending sale records are not subtracted — `productStockMap` does not
read the queue at all — so the reported value coincides with the claimed
formula only when the queue is empty. -/
theorem c3_reported_stock_is_remote_snapshot (ps : List Product)
    (sls : List StockLevel) (p : Product) (hmem : p ∈ ps) :
    (p, remoteStockSnapshot sls p.id) ∈ productStockMap ps sls ∧
    projectedStockSpec sls [] p.id = remoteStockSnapshot sls p.id := by
  constructor
  · unfold productStockMap
    exact List.mem_map.mpr ⟨p, hmem, rfl⟩
  · simp [projectedStockSpec]

/-- Witness for the amended C3 at a concrete state. -/
theorem c3_reported_stock_is_remote_snapshot_witness :
    prodA ∈ [prodA] ∧
    ((prodA, remoteStockSnapshot [stockA10] prodA.id) ∈
        productStockMap [prodA] [stockA10] ∧
      projectedStockSpec [stockA10] [] prodA.id =
        remoteStockSnapshot [stockA10] prodA.id) :=
  ⟨by decide, c3_reported_stock_is_remote_snapshot [prodA] [stockA10] prodA (by decide)⟩

/-- C4 (counterexample): online, with a remote whose sales insert fails, the
sale is lost rather than enqueued: the emitted trace is exactly the one failed
insert and the resulting queue is still empty. -/
theorem c4_failed_online_submission_not_enqueued :
    (completeSale envInsertFail userA [prodA] [stockA10] true false true
        { cart := [⟨prodA, 2⟩], queue := [], printModalOpen := false }).1.queue = [] ∧
    (completeSale envInsertFail userA [prodA] [stockA10] true false true
        { cart := [⟨prodA, 2⟩], queue := [], printModalOpen := false }).2 =
      [Action.insertSales (saleRowsOf userA [⟨prodA, 2⟩])] := by
  decide

/-- C4 (amended): `completeSale` reads the connectivity state once at call
time; if online it attempts Remote Submission immediately but never enqueues,
whatever the submission outcome — a failed immediate submission loses the
sale; if offline (with working storage) it enqueues directly and attempts no
submission. -/
theorem c4_dispatch_on_connectivity (env : RemoteEnv) (u : User)
    (ps : List Product) (sls : List StockLevel) (printer : Bool) (st : PosState) :
    ((completeSale env u ps sls true printer true st).1.queue = st.queue ∧
      (completeSale env u ps sls true printer true st).2 =
        handleNewSale env u ps sls st.cart) ∧
    ((completeSale env u ps sls false printer true st).1.queue =
        st.queue ++ [st.cart] ∧
      ∀ rows, Action.insertSales rows ∉
        (completeSale env u ps sls false printer true st).2) := by
  constructor
  · cases printer <;> simp [completeSale]
  · simp [completeSale]

/-- C5 (counterexample): online with the printer disabled and a remote whose
sales insert fails, the cart is cleared even though the submission was never
acknowledged — no stock decrement ever follows the failed insert. -/
theorem c5_cart_cleared_before_acknowledgement :
    (completeSale envInsertFail userA [prodA] [stockA10] true false true
        { cart := [⟨prodA, 2⟩], queue := [], printModalOpen := false }).1.cart = [] ∧
    Action.updateStock "A" 8 ∉
      (completeSale envInsertFail userA [prodA] [stockA10] true false true
        { cart := [⟨prodA, 2⟩], queue := [], printModalOpen := false }).2 := by
  decide

/-- C5 (amended): in the offline branch the cart survives a persistence
failure (the enqueue throws before `setCart([])` runs) and is cleared only
after a successful enqueue; in the online branch the cart is cleared without
waiting for the submission result — immediately when the printer is disabled,
or unconditionally at print-modal close when it is enabled. -/
theorem c5_cart_clearing_discipline (env : RemoteEnv) (u : User)
    (ps : List Product) (sls : List StockLevel) (printer : Bool) (st : PosState) :
    ((completeSale env u ps sls false printer false st).1 = st) ∧
    ((completeSale env u ps sls false printer true st).1.cart = []) ∧
    ((completeSale env u ps sls true false true st).1.cart = []) ∧
    ((completeSale env u ps sls true true true st).1.cart = st.cart ∧
      (handleClosePrintModal (completeSale env u ps sls true true true st).1).cart = []) := by
  refine ⟨?_, ?_, ?_, ?_, ?_⟩ <;> simp [completeSale, handleClosePrintModal]

/-- C9: if the initial sales insert of a Remote Submission fails, the
submission's trace is exactly that one failed insert: no stock decrement and
no audit append are attempted for that sale. -/
theorem c9_insert_failure_stops_submission (env : RemoteEnv) (u : User)
    (ps : List Product) (sls : List StockLevel) (cart : Cart)
    (hfail : env.salesInsertOk (saleRowsOf u cart) = false) :
    handleNewSale env u ps sls cart = [Action.insertSales (saleRowsOf u cart)] := by
  simp [handleNewSale, hfail]

/-- Witness for C9 at a concrete failing remote. -/
theorem c9_insert_failure_stops_submission_witness :
    envInsertFail.salesInsertOk (saleRowsOf userA [⟨prodA, 2⟩]) = false ∧
    handleNewSale envInsertFail userA [prodA] [stockA10] [⟨prodA, 2⟩] =
      [Action.insertSales (saleRowsOf userA [⟨prodA, 2⟩])] :=
  ⟨rfl, c9_insert_failure_stops_submission envInsertFail userA [prodA] [stockA10]
    [⟨prodA, 2⟩] rfl⟩

/-- C6 (counterexample): draining one queued one-line sale (product `A`,
quantity 2, remote stock 10) against a fully accepting remote yields exactly
one sale-insert and one stock-decrement, but two audit-appends, not one: the
stock-change entry plus the `Sync Offline Sales` entry that the drain itself
produces for a queue operation. -/
theorem c6_two_audits_for_one_record :
    (syncOfflineSales envAllOk userA [prodA] [stockA10] [[⟨prodA, 2⟩]]).1.countP
      Action.isInsertSales = 1 ∧
    (syncOfflineSales envAllOk userA [prodA] [stockA10] [[⟨prodA, 2⟩]]).1.countP
      Action.isUpdateStock = 1 ∧
    (syncOfflineSales envAllOk userA [prodA] [stockA10] [[⟨prodA, 2⟩]]).1.countP
      Action.isAudit = 2 ∧
    Action.insertAudit "Sync Offline Sales" (AuditDetails.syncOffline 1) ∈
      (syncOfflineSales envAllOk userA [prodA] [stockA10] [[⟨prodA, 2⟩]]).1 ∧
    (2 : Nat) ≠ 1 := by
  decide

/-- C6 (amended): a drain over a non-empty queue whose products are all
stocked, against a fully accepting remote, emits one sale-insert per queued
record, one stock-decrement per queued line, and one audit entry per stock
decrement plus exactly one further audit entry for the sync itself (a queue
operation): audit-appends = 1 + stock-decrements, with none for the
sale-insert step. -/
theorem c6_audit_per_decrement (env : RemoteEnv) (u : User) (ps : List Product)
    (sls : List StockLevel) (q : List Cart)
    (hq : q ≠ [])
    (hins : ∀ rows, env.salesInsertOk rows = true)
    (hupd : ∀ pid n, env.stockUpdateOk pid n = true)
    (hstk : ∀ c ∈ q, ∀ item ∈ c,
      (sls.find? (fun s => s.product_id == item.product.id)).isSome) :
    (syncOfflineSales env u ps sls q).1.countP Action.isInsertSales = q.length ∧
    (syncOfflineSales env u ps sls q).1.countP Action.isUpdateStock = totalLines q ∧
    (syncOfflineSales env u ps sls q).1.countP Action.isAudit = 1 + totalLines q := by
  obtain ⟨h1, h2, h3⟩ := drainTrace_counts env u ps sls hins hupd q hstk
  rw [syncOfflineSales_trace env u ps sls hq, List.countP_cons, List.countP_cons,
    List.countP_cons, List.countP_append, List.countP_append, List.countP_append,
    h1, h2, h3]
  simp [Action.isInsertSales, Action.isUpdateStock, Action.isAudit]
  omega

/-- Witness for the amended C6 at the concrete one-line scenario. -/
theorem c6_audit_per_decrement_witness :
    ([[(⟨prodA, 2⟩ : CartItem)]] ≠ ([] : List Cart)) ∧
    (∀ rows, envAllOk.salesInsertOk rows = true) ∧
    (∀ pid n, envAllOk.stockUpdateOk pid n = true) ∧
    (∀ c ∈ [[(⟨prodA, 2⟩ : CartItem)]], ∀ item ∈ c,
      (([stockA10]).find? (fun s => s.product_id == item.product.id)).isSome) ∧
    ((syncOfflineSales envAllOk userA [prodA] [stockA10]
        [[⟨prodA, 2⟩]]).1.countP Action.isInsertSales = [[(⟨prodA, 2⟩ : CartItem)]].length ∧
      (syncOfflineSales envAllOk userA [prodA] [stockA10]
        [[⟨prodA, 2⟩]]).1.countP Action.isUpdateStock = totalLines [[⟨prodA, 2⟩]] ∧
      (syncOfflineSales envAllOk userA [prodA] [stockA10]
        [[⟨prodA, 2⟩]]).1.countP Action.isAudit = 1 + totalLines [[⟨prodA, 2⟩]]) :=
  ⟨by decide, fun _ => rfl, fun _ _ => rfl, by decide,
    c6_audit_per_decrement envAllOk userA [prodA] [stockA10] [[⟨prodA, 2⟩]]
      (by decide) (fun _ => rfl) (fun _ _ => rfl) (by decide)⟩

/-- C7 (counterexample): a sale of quantity 3 captured when the stock
snapshot showed 10 (so the capture-time constraint 1 ≤ 3 ≤ 10 held) is
replayed after the remote snapshot has dropped to 1: the drain writes the
stock quantity -2, a negative value, to the StockLevel row of product `A`. -/
theorem c7_negative_stock_write :
    (1 : Int) ≤ 3 ∧ (3 : Int) ≤ remoteStockSnapshot [stockA10] "A" ∧
    Action.updateStock "A" (-2) ∈
      (syncOfflineSales envAllOk userA [prodA] [stockA1] [[⟨prodA, 3⟩]]).1 ∧
    (-2 : Int) < 0 := by
  decide

/-- C7 (amended): the quantity a drain writes for a line is the drain-time
snapshot quantity minus the line quantity, with no clamping; every written
quantity is non-negative provided each queued line's quantity is at most the
drain-time snapshot quantity of its product (when the remote snapshot has
dropped below a queued quantity in the meantime, a negative value is
written). -/
theorem c7_no_negative_write_within_snapshot (env : RemoteEnv) (u : User)
    (ps : List Product) (sls : List StockLevel) (q : List Cart)
    (hle : ∀ c ∈ q, ∀ item ∈ c, item.quantity ≤
      (((sls.find? (fun s => s.product_id == item.product.id)).map
        (fun s => s.quantity)).getD item.quantity)) :
    ∀ pid n, Action.updateStock pid n ∈ (syncOfflineSales env u ps sls q).1 →
      0 ≤ n := by
  intro pid n hmem
  obtain ⟨c, hc, item, hitem, _, s, hs, hn⟩ := updateStock_mem_drain hmem
  have hq := hle c hc item hitem
  rw [hs] at hq
  simp at hq
  omega

/-- Witness for the amended C7 at a concrete in-snapshot replay. -/
theorem c7_no_negative_write_within_snapshot_witness :
    (∀ c ∈ [[(⟨prodA, 3⟩ : CartItem)]], ∀ item ∈ c, item.quantity ≤
      ((([stockA10]).find? (fun s => s.product_id == item.product.id)).map
        (fun s => s.quantity)).getD item.quantity) ∧
    (∀ pid n, Action.updateStock pid n ∈
        (syncOfflineSales envAllOk userA [prodA] [stockA10] [[⟨prodA, 3⟩]]).1 →
      0 ≤ n) :=
  ⟨by decide,
    c7_no_negative_write_within_snapshot envAllOk userA [prodA] [stockA10]
      [[⟨prodA, 3⟩]] (by decide)⟩

/-- C8: the queue is appended at capture time and replayed front-to-back: a
drain against a remote that accepts every sales insert leaves the queue empty
and performs the sale inserts exactly in the queue's (capture) order, and the
offline capture path appends the new sale at the end of the queue. -/
theorem c8_drain_in_capture_order (env : RemoteEnv) (u : User)
    (ps : List Product) (sls : List StockLevel) (q : List Cart)
    (hins : ∀ rows, env.salesInsertOk rows = true) :
    (syncOfflineSales env u ps sls q).2 = [] ∧
    insertedSaleRows (syncOfflineSales env u ps sls q).1 = q.map (saleRowsOf u) ∧
    ∀ (printer : Bool) (st : PosState),
      (completeSale env u ps sls false printer true st).1.queue =
        st.queue ++ [st.cart] := by
  refine ⟨syncOfflineSales_queue_nil env u ps sls q, ?_, ?_⟩
  · by_cases hq : q = []
    · subst hq
      rw [syncOfflineSales]
      simp [insertedSaleRows]
    · rw [syncOfflineSales_trace env u ps sls hq, insertedSaleRows_audit_cons,
        insertedSaleRows_append, insertedSaleRows_flattenCarts env u ps sls hins q,
        insertedSaleRows_tail, List.append_nil]
  · intro printer st
    simp [completeSale]

/-- Witness for C8 at a concrete two-record queue. -/
theorem c8_drain_in_capture_order_witness :
    (∀ rows, envAllOk.salesInsertOk rows = true) ∧
    ((syncOfflineSales envAllOk userA [prodA, prodB] [stockA10, stockB4]
        [[⟨prodA, 1⟩], [⟨prodB, 2⟩]]).2 = [] ∧
      insertedSaleRows (syncOfflineSales envAllOk userA [prodA, prodB]
        [stockA10, stockB4] [[⟨prodA, 1⟩], [⟨prodB, 2⟩]]).1 =
        [[(⟨prodA, 1⟩ : CartItem)], [⟨prodB, 2⟩]].map (saleRowsOf userA) ∧
      ∀ (printer : Bool) (st : PosState),
        (completeSale envAllOk userA [prodA, prodB] [stockA10, stockB4]
          false printer true st).1.queue = st.queue ++ [st.cart]) :=
  ⟨fun _ => rfl,
    c8_drain_in_capture_order envAllOk userA [prodA, prodB] [stockA10, stockB4]
      [[⟨prodA, 1⟩], [⟨prodB, 2⟩]] (fun _ => rfl)⟩

/-- C10: a queued line whose product has no StockLevel row is silently
skipped during replay: the sale rows of every queued cart are still inserted,
no stock decrement for that product ever appears, every stock-change audit
entry corresponds to a stock decrement that did happen (so none is emitted
for the skipped line), the drain still clears the queue, and it surfaces the
success alert rather than an error. -/
theorem c10_missing_stock_row_skipped (env : RemoteEnv) (u : User)
    (ps : List Product) (sls : List StockLevel) (q : List Cart) (pid : String)
    (hupd : ∀ pid2 n, env.stockUpdateOk pid2 n = true)
    (hnone : sls.find? (fun s => s.product_id == pid) = none) :
    (syncOfflineSales env u ps sls q).2 = [] ∧
    (∀ c ∈ q, Action.insertSales (saleRowsOf u c) ∈
      (syncOfflineSales env u ps sls q).1) ∧
    (∀ n : Int, Action.updateStock pid n ∉ (syncOfflineSales env u ps sls q).1) ∧
    (q ≠ [] →
      (syncOfflineSales env u ps sls q).1.countP Action.isAudit =
        1 + (syncOfflineSales env u ps sls q).1.countP Action.isUpdateStock ∧
      Action.alertMsg syncSuccessMsg ∈ (syncOfflineSales env u ps sls q).1) := by
  refine ⟨syncOfflineSales_queue_nil env u ps sls q, ?_, ?_, ?_⟩
  · intro c hc
    rw [syncOfflineSales_trace env u ps sls (List.ne_nil_of_mem hc)]
    refine List.mem_cons_of_mem _ (List.mem_append_left _ ?_)
    refine List.mem_flatten.mpr ⟨handleNewSale env u ps sls c,
      List.mem_map_of_mem _ hc, ?_⟩
    rw [handleNewSale]
    exact List.mem_cons_self _ _
  · intro n hmem
    obtain ⟨c, _, item, _, hpid, s, hs, _⟩ := updateStock_mem_drain hmem
    rw [hpid] at hnone
    rw [hnone] at hs
    exact Option.noConfusion hs
  · intro hq
    constructor
    · rw [syncOfflineSales_trace env u ps sls hq, List.countP_cons, List.countP_cons,
        List.countP_append, List.countP_append,
        drain_audit_eq_update env u ps sls hupd q]
      simp [Action.isAudit, Action.isUpdateStock, List.countP_cons]
      omega
    · rw [syncOfflineSales_trace env u ps sls hq]
      refine List.mem_cons_of_mem _ (List.mem_append_right _ ?_)
      simp

/-- Witness for C10: product `A` has no stock row in the snapshot, yet the
queued two-line cart drains, inserts its sale rows, and decrements only
product `B`. -/
theorem c10_missing_stock_row_skipped_witness :
    (∀ pid2 n, envAllOk.stockUpdateOk pid2 n = true) ∧
    (([stockB4]).find? (fun s => s.product_id == "A") = none) ∧
    ((syncOfflineSales envAllOk userA [prodA, prodB] [stockB4]
        [[⟨prodA, 2⟩, ⟨prodB, 1⟩]]).2 = [] ∧
      (∀ c ∈ [[(⟨prodA, 2⟩ : CartItem), ⟨prodB, 1⟩]],
        Action.insertSales (saleRowsOf userA c) ∈
          (syncOfflineSales envAllOk userA [prodA, prodB] [stockB4]
            [[⟨prodA, 2⟩, ⟨prodB, 1⟩]]).1) ∧
      (∀ n : Int, Action.updateStock "A" n ∉
        (syncOfflineSales envAllOk userA [prodA, prodB] [stockB4]
          [[⟨prodA, 2⟩, ⟨prodB, 1⟩]]).1) ∧
      ([[(⟨prodA, 2⟩ : CartItem), ⟨prodB, 1⟩]] ≠ ([] : List Cart) →
        (syncOfflineSales envAllOk userA [prodA, prodB] [stockB4]
          [[⟨prodA, 2⟩, ⟨prodB, 1⟩]]).1.countP Action.isAudit =
          1 + (syncOfflineSales envAllOk userA [prodA, prodB] [stockB4]
            [[⟨prodA, 2⟩, ⟨prodB, 1⟩]]).1.countP Action.isUpdateStock ∧
        Action.alertMsg syncSuccessMsg ∈
          (syncOfflineSales envAllOk userA [prodA, prodB] [stockB4]
            [[⟨prodA, 2⟩, ⟨prodB, 1⟩]]).1)) :=
  ⟨fun _ _ => rfl, by decide,
    c10_missing_stock_row_skipped envAllOk userA [prodA, prodB] [stockB4]
      [[⟨prodA, 2⟩, ⟨prodB, 1⟩]] "A" (fun _ _ => rfl) (by decide)⟩

end VapeKings
